import Mathlib

/-!
Shallow embedding of the pixshop2000 photo-editing client.

The state, handlers and helpers below are translated from `src/App.tsx`
(history management, mode handling, editor and combine handlers, coordinate
mapping, upscale pipeline), from `src/services/geminiService.ts`
(`handleApiResponse`) and from the panel components (the `disabled`
attributes that gate generation-triggering controls while the app is busy).
Asynchronous handlers are modelled as atomic state transformers: each
handler receives the outcomes of its external calls (the generative
transform service and the upscale pipeline) as explicit inputs and returns
the final component state, together with instrumentation flags recording
whether the service call and the history append actually executed.
-/

namespace PixShop

/-- An image file (browser `File` object), abstracted to an identity tag.
`App.tsx` never inspects the bytes of the files it stores in its histories. -/
abbrev ImgFile := Nat

/-- A 2-D point `\x7b x, y \x7d` with rational coordinates (JS numbers are
modelled by exact rationals). -/
structure Pt where
  x : ℚ
  y : ℚ
  deriving DecidableEq, Repr

/-- `type AppMode = 'start' | 'editor' | 'combine'` (App.tsx line 146). -/
inductive AppMode
  | start
  | editor
  | combine
  deriving DecidableEq, Repr

/-- `type Tab = 'retouch' | 'adjust' | 'filters' | 'remove-bg'` (App.tsx line 145). -/
inductive Tab
  | retouch
  | adjust
  | filters
  | removeBg
  deriving DecidableEq, Repr

/-- The React state of the `App` component (App.tsx lines 156-178), one field
per `useState` hook.  `isComparing` is omitted: it is pure presentation and no
handler modelled here reads or writes it. -/
structure AppState where
  mode : AppMode
  isLoading : Bool
  loadingMessage : String
  error : Option String
  editorHistory : List ImgFile
  editorHistoryIndex : Int
  prompt : String
  editHotspot : Option Pt
  displayHotspot : Option Pt
  activeTab : Tab
  sourceImage : Option ImgFile
  destinationHistory : List ImgFile
  destinationHistoryIndex : Int
  sourceSelection : Option Pt
  destinationTarget : Option Pt
  displaySourceSelection : Option Pt
  displayDestinationTarget : Option Pt
  deriving DecidableEq, Repr

/-- JS `str.trim() === ''` — the falsiness test `!str.trim()` used by the
handlers on instruction text: true exactly when the string contains nothing
but whitespace.  (Stated on the character list so that it evaluates by
kernel reduction; `String.trim` itself is defined by well-founded recursion.) -/
def jsTrimEmpty (str : String) : Bool :=
  str.data.all Char.isWhitespace

/-- JS array indexing `a[i]` for a possibly negative integer index
(`a[-1]` is `undefined`, modelled as `none`). -/
def jsIndex (l : List ImgFile) (i : Int) : Option ImgFile :=
  if 0 ≤ i then l[i.toNat]? else none

/-- `editorHistory[editorHistoryIndex] ?? null` (App.tsx line 197). -/
def currentEditorImage (s : AppState) : Option ImgFile :=
  jsIndex s.editorHistory s.editorHistoryIndex

/-- `editorHistory[0] ?? null` (App.tsx line 198). -/
def originalEditorImage (s : AppState) : Option ImgFile :=
  s.editorHistory.head?

/-- `destinationHistory[destinationHistoryIndex] ?? null` (App.tsx line 204). -/
def currentDestinationImage (s : AppState) : Option ImgFile :=
  jsIndex s.destinationHistory s.destinationHistoryIndex

/-- `destinationHistory[0] ?? null` (App.tsx line 205). -/
def originalDestinationImage (s : AppState) : Option ImgFile :=
  s.destinationHistory.head?

/-- `const canUndo = editorHistoryIndex > 0` (App.tsx line 210). -/
def canUndo (s : AppState) : Bool :=
  0 < s.editorHistoryIndex

/-- `const canRedo = editorHistoryIndex < editorHistory.length - 1` (App.tsx line 211). -/
def canRedo (s : AppState) : Bool :=
  s.editorHistoryIndex < (s.editorHistory.length : Int) - 1

/-- `const canUndoCombine = destinationHistoryIndex > 0` (App.tsx line 212). -/
def canUndoCombine (s : AppState) : Bool :=
  0 < s.destinationHistoryIndex

/-- `const canRedoCombine = destinationHistoryIndex < destinationHistory.length - 1`
(App.tsx line 213). -/
def canRedoCombine (s : AppState) : Bool :=
  s.destinationHistoryIndex < (s.destinationHistory.length : Int) - 1

/-- JS `Array.prototype.slice(0, e)`: the prefix of length `e`; a negative `e`
counts back from the end of the array. -/
def jsSliceTo (l : List ImgFile) (e : Int) : List ImgFile :=
  if 0 ≤ e then l.take e.toNat else l.take (l.length - (-e).toNat)

/-- `addImageToEditorHistory` (App.tsx lines 217-222): slice the history to
`[0..index]`, push the new file, and point the cursor at the new last slot. -/
def addImageToEditorHistory (s : AppState) (newImageFile : ImgFile) : AppState :=
  let newHistory := jsSliceTo s.editorHistory (s.editorHistoryIndex + 1) ++ [newImageFile]
  { s with
      editorHistory := newHistory
      editorHistoryIndex := (newHistory.length : Int) - 1 }

/-- `addImageToDestinationHistory` (App.tsx lines 224-229). -/
def addImageToDestinationHistory (s : AppState) (newImageFile : ImgFile) : AppState :=
  let newHistory := jsSliceTo s.destinationHistory (s.destinationHistoryIndex + 1) ++ [newImageFile]
  { s with
      destinationHistory := newHistory
      destinationHistoryIndex := (newHistory.length : Int) - 1 }

/-- `handleStartEditor` (App.tsx lines 233-241). -/
def handleStartEditor (s : AppState) (file : ImgFile) : AppState :=
  { s with
      error := none
      editorHistory := [file]
      editorHistoryIndex := 0
      editHotspot := none
      displayHotspot := none
      activeTab := Tab.retouch
      mode := AppMode.editor }

/-- `handleStartCombine` (App.tsx lines 243-253). -/
def handleStartCombine (s : AppState) (sourceFile destinationFile : ImgFile) : AppState :=
  { s with
      error := none
      sourceImage := some sourceFile
      destinationHistory := [destinationFile]
      destinationHistoryIndex := 0
      sourceSelection := none
      destinationTarget := none
      displaySourceSelection := none
      displayDestinationTarget := none
      mode := AppMode.combine }

/-- `handleGoToStart` (App.tsx lines 255-271). -/
def handleGoToStart (s : AppState) : AppState :=
  { s with
      mode := AppMode.start
      error := none
      editorHistory := []
      editorHistoryIndex := -1
      prompt := ""
      editHotspot := none
      displayHotspot := none
      sourceImage := none
      destinationHistory := []
      destinationHistoryIndex := -1
      sourceSelection := none
      destinationTarget := none
      displaySourceSelection := none
      displayDestinationTarget := none }

/-- `handleUndo` (App.tsx lines 379-385): guarded by `canUndo`; on success the
cursor moves back one slot and both hotspots are cleared.  When `canUndo` is
false nothing at all happens (no error is recorded anywhere). -/
def handleUndo (s : AppState) : AppState :=
  if canUndo s then
    { s with
        editorHistoryIndex := s.editorHistoryIndex - 1
        editHotspot := none
        displayHotspot := none }
  else s

/-- `handleRedo` (App.tsx lines 387-391): guarded by `canRedo`. -/
def handleRedo (s : AppState) : AppState :=
  if canRedo s then
    { s with editorHistoryIndex := s.editorHistoryIndex + 1 }
  else s

/-- `handleReset` (App.tsx lines 393-400): cursor back to 0, error and
hotspots cleared; the history sequence itself is untouched. -/
def handleReset (s : AppState) : AppState :=
  if 0 < s.editorHistory.length then
    { s with
        editorHistoryIndex := 0
        error := none
        editHotspot := none
        displayHotspot := none }
  else s

/-- `handleUndoCombine` (App.tsx lines 533-537). -/
def handleUndoCombine (s : AppState) : AppState :=
  if canUndoCombine s then
    { s with destinationHistoryIndex := s.destinationHistoryIndex - 1 }
  else s

/-- `handleRedoCombine` (App.tsx lines 539-543). -/
def handleRedoCombine (s : AppState) : AppState :=
  if canRedoCombine s then
    { s with destinationHistoryIndex := s.destinationHistoryIndex + 1 }
  else s

/-- JS `Math.round`: round half away from zero toward positive infinity,
i.e. `Math.round(x) = floor(x + 0.5)`. -/
def jsRound (q : ℚ) : Int :=
  Int.floor (q + 1 / 2)

/-- The geometry read off the clicked `<img>` element: the pointer offset
within the element, the element's rendered (client) size, and the image's
native (natural) size. -/
structure ClickGeom where
  offsetX : ℚ
  offsetY : ℚ
  naturalWidth : ℚ
  naturalHeight : ℚ
  clientWidth : ℚ
  clientHeight : ℚ
  deriving DecidableEq, Repr

/-- `handleImageClick` (App.tsx lines 454-473): only active on the retouch
tab; stores the raw offset as the display hotspot and the offset scaled by
`natural/client` (rounded) as the native-space edit hotspot. -/
def handleImageClick (s : AppState) (g : ClickGeom) : AppState :=
  if s.activeTab ≠ Tab.retouch then s
  else
    let scaleX := g.naturalWidth / g.clientWidth
    let scaleY := g.naturalHeight / g.clientHeight
    { s with
        displayHotspot := some ⟨g.offsetX, g.offsetY⟩
        editHotspot := some ⟨(jsRound (g.offsetX * scaleX) : ℚ), (jsRound (g.offsetY * scaleY) : ℚ)⟩ }

/-- Which image was clicked in combine mode (`type` argument of
`handleImageClickForCombine`). -/
inductive ClickTarget
  | source
  | destination
  deriving DecidableEq, Repr

/-- `handleImageClickForCombine` (App.tsx lines 512-531): same coordinate
mapping as `handleImageClick`, written to the source-selection or
destination-target pair of fields. -/
def handleImageClickForCombine (s : AppState) (g : ClickGeom) (t : ClickTarget) : AppState :=
  let scaleX := g.naturalWidth / g.clientWidth
  let scaleY := g.naturalHeight / g.clientHeight
  let native : Pt := ⟨(jsRound (g.offsetX * scaleX) : ℚ), (jsRound (g.offsetY * scaleY) : ℚ)⟩
  match t with
  | ClickTarget.source =>
      { s with
          displaySourceSelection := some ⟨g.offsetX, g.offsetY⟩
          sourceSelection := some native }
  | ClickTarget.destination =>
      { s with
          displayDestinationTarget := some ⟨g.offsetX, g.offsetY⟩
          destinationTarget := some native }

/-- Outcomes of the external generative calls made by the handlers, one field
per function imported from `services/geminiService.ts` plus the local upscale
pipeline `createUpscaledImageFile`.  Data URLs are abstracted to strings and
produced files to `ImgFile` tags; `Except.error` is a rejected promise. -/
structure TransformSvc where
  generateEditedImage : ImgFile → String → Pt → Except String String
  generateAdjustedImage : ImgFile → String → Except String String
  generateFilteredImage : ImgFile → String → Except String String
  generateBackgroundImageRemoved : ImgFile → Except String String
  combineImages : ImgFile → ImgFile → String → Pt → Pt → Except String String
  createUpscaledImageFile : String → ImgFile → Except String ImgFile

/-- Result of one generation handler run: the final state, plus
instrumentation recording whether the transform-service call was reached and
whether a snapshot was appended to a history during the run. -/
structure HandlerOut where
  state : AppState
  serviceCalled : Bool
  appended : Bool
  deriving Repr

/-- `handleGenerate` (App.tsx lines 275-308).  The transient mid-chain
`loadingMessage` updates are elided: the `finally` block clears them before
the handler resolves. -/
def handleGenerate (svc : TransformSvc) (s : AppState) : HandlerOut :=
  match currentEditorImage s, originalEditorImage s with
  | some cur, some orig =>
    if jsTrimEmpty s.prompt then
      ⟨{ s with error := some "Por favor, insira uma descrição para sua edição." }, false, false⟩
    else
      let s0 := { s with isLoading := true, error := none }
      let transformed : Except String String :=
        match s.editHotspot with
        | some h => svc.generateEditedImage cur s.prompt h
        | none => svc.generateAdjustedImage cur s.prompt
      match transformed with
      | Except.error msg =>
          ⟨{ s0 with
               error := some ("Falha ao gerar a imagem. " ++ msg)
               isLoading := false, loadingMessage := "" }, true, false⟩
      | Except.ok newImageUrl =>
        match svc.createUpscaledImageFile newImageUrl orig with
        | Except.error msg =>
            ⟨{ s0 with
                 error := some ("Falha ao gerar a imagem. " ++ msg)
                 isLoading := false, loadingMessage := "" }, true, false⟩
        | Except.ok newImageFile =>
            let s1 := addImageToEditorHistory s0 newImageFile
            ⟨{ s1 with
                 editHotspot := none
                 displayHotspot := none
                 prompt := ""
                 isLoading := false, loadingMessage := "" }, true, true⟩
  | _, _ => ⟨{ s with error := some "Nenhuma imagem carregada para editar." }, false, false⟩

/-- `handleApplyFilter` (App.tsx lines 310-331).  Note: the success path
appends to the history but does NOT touch `editHotspot` / `displayHotspot`. -/
def handleApplyFilter (svc : TransformSvc) (filterPrompt : String) (s : AppState) : HandlerOut :=
  match currentEditorImage s, originalEditorImage s with
  | some cur, some orig =>
      let s0 := { s with isLoading := true, error := none }
      match svc.generateFilteredImage cur filterPrompt with
      | Except.error msg =>
          ⟨{ s0 with
               error := some ("Falha ao aplicar o filtro. " ++ msg)
               isLoading := false, loadingMessage := "" }, true, false⟩
      | Except.ok url =>
        match svc.createUpscaledImageFile url orig with
        | Except.error msg =>
            ⟨{ s0 with
                 error := some ("Falha ao aplicar o filtro. " ++ msg)
                 isLoading := false, loadingMessage := "" }, true, false⟩
        | Except.ok f =>
            ⟨{ addImageToEditorHistory s0 f with
                 isLoading := false, loadingMessage := "" }, true, true⟩
  | _, _ => ⟨{ s with error := some "Nenhuma imagem carregada para aplicar um filtro." }, false, false⟩

/-- `handleApplyAdjustment` (App.tsx lines 333-354).  Like the filter handler,
the success path leaves the hotspot selection untouched. -/
def handleApplyAdjustment (svc : TransformSvc) (adjustmentPrompt : String) (s : AppState) : HandlerOut :=
  match currentEditorImage s, originalEditorImage s with
  | some cur, some orig =>
      let s0 := { s with isLoading := true, error := none }
      match svc.generateAdjustedImage cur adjustmentPrompt with
      | Except.error msg =>
          ⟨{ s0 with
               error := some ("Falha ao aplicar o ajuste. " ++ msg)
               isLoading := false, loadingMessage := "" }, true, false⟩
      | Except.ok url =>
        match svc.createUpscaledImageFile url orig with
        | Except.error msg =>
            ⟨{ s0 with
                 error := some ("Falha ao aplicar o ajuste. " ++ msg)
                 isLoading := false, loadingMessage := "" }, true, false⟩
        | Except.ok f =>
            ⟨{ addImageToEditorHistory s0 f with
                 isLoading := false, loadingMessage := "" }, true, true⟩
  | _, _ => ⟨{ s with error := some "Nenhuma imagem carregada para aplicar um ajuste." }, false, false⟩

/-- `handleRemoveBackground` (App.tsx lines 356-377). -/
def handleRemoveBackground (svc : TransformSvc) (s : AppState) : HandlerOut :=
  match currentEditorImage s, originalEditorImage s with
  | some cur, some orig =>
      let s0 := { s with isLoading := true, error := none }
      match svc.generateBackgroundImageRemoved cur with
      | Except.error msg =>
          ⟨{ s0 with
               error := some ("Falha ao remover o fundo. " ++ msg)
               isLoading := false, loadingMessage := "" }, true, false⟩
      | Except.ok url =>
        match svc.createUpscaledImageFile url orig with
        | Except.error msg =>
            ⟨{ s0 with
                 error := some ("Falha ao remover o fundo. " ++ msg)
                 isLoading := false, loadingMessage := "" }, true, false⟩
        | Except.ok f =>
            ⟨{ addImageToEditorHistory s0 f with
                 isLoading := false, loadingMessage := "" }, true, true⟩
  | _, _ => ⟨{ s with error := some "Nenhuma imagem carregada para remover o fundo." }, false, false⟩

/-- `handleCombineGenerate` (App.tsx lines 476-510): requires the source
image, the current destination image, both selection points and (implicitly,
same guard) the original destination image; then a non-empty element
description.  On success it appends to the destination history and clears all
four selection fields. -/
def handleCombineGenerate (svc : TransformSvc) (elementPrompt : String) (s : AppState) : HandlerOut :=
  match s.sourceImage, currentDestinationImage s, s.sourceSelection,
        s.destinationTarget, originalDestinationImage s with
  | some src, some dst, some ss, some dt, some odst =>
    if jsTrimEmpty elementPrompt then
      ⟨{ s with error := some "Por favor, descreva o elemento que você deseja mover." }, false, false⟩
    else
      let s0 := { s with isLoading := true, error := none }
      match svc.combineImages src dst elementPrompt ss dt with
      | Except.error msg =>
          ⟨{ s0 with
               error := some ("Falha ao combinar as imagens. " ++ msg)
               isLoading := false, loadingMessage := "" }, true, false⟩
      | Except.ok url =>
        match svc.createUpscaledImageFile url odst with
        | Except.error msg =>
            ⟨{ s0 with
                 error := some ("Falha ao combinar as imagens. " ++ msg)
                 isLoading := false, loadingMessage := "" }, true, false⟩
        | Except.ok f =>
            let s1 := addImageToDestinationHistory s0 f
            ⟨{ s1 with
                 sourceSelection := none
                 destinationTarget := none
                 displaySourceSelection := none
                 displayDestinationTarget := none
                 isLoading := false, loadingMessage := "" }, true, true⟩
  | _, _, _, _, _ =>
      ⟨{ s with
           error := some "Por favor, selecione um elemento de origem e um local de destino antes de combinar." },
       false, false⟩

/-- The user actions that trigger a generation chain. -/
inductive GenAction
  | generateSubmit
  | applyFilter (p : String)
  | applyAdjustment (p : String)
  | removeBackground
  | combineSubmit (p : String)
  deriving DecidableEq, Repr

/-- Modelled from the spec: `FilterPanel.tsx` is not among the provided
sources (only its import and `<FilterPanel onApplyFilter=... isLoading=...>`
call site in App.tsx line 649 are).  Per spec §5, generation-triggering
controls are disabled while the busy flag is set, exactly as the sibling
panels AdjustmentPanel.tsx and CropPanel.tsx do with `disabled=\x7bisLoading\x7d`. -/
def filterPanelButtonEnabled (s : AppState) : Bool :=
  !s.isLoading

/-- Whether the DOM control that fires the action is operable, read off the
`disabled` attributes in the render code: the retouch submit button
(App.tsx line 640, `disabled=\x7bisLoading || !prompt.trim()\x7d`; the text input
itself is disabled while loading, so no implicit form submission is possible
either), the AdjustmentPanel preset buttons and the CropPanel button
(`disabled=\x7bisLoading\x7d`), and the CombineImagesPanel submit, whose form
handler additionally guards with
`canGenerate = sourceSelected && destinationSelected && elementPrompt.trim() !== '' && !isLoading`. -/
def triggerEnabled (s : AppState) (a : GenAction) : Bool :=
  match a with
  | GenAction.generateSubmit => !s.isLoading && !jsTrimEmpty s.prompt
  | GenAction.applyFilter _ => filterPanelButtonEnabled s
  | GenAction.applyAdjustment _ => !s.isLoading
  | GenAction.removeBackground => !s.isLoading
  | GenAction.combineSubmit p =>
      s.sourceSelection.isSome && s.destinationTarget.isSome && !jsTrimEmpty p && !s.isLoading

/-- UI event dispatch: a generation action reaches its handler only when its
triggering control is enabled; otherwise the event never fires and the state
is unchanged. -/
def dispatch (svc : TransformSvc) (s : AppState) (a : GenAction) : AppState :=
  if triggerEnabled s a then
    match a with
    | GenAction.generateSubmit => (handleGenerate svc s).state
    | GenAction.applyFilter p => (handleApplyFilter svc p s).state
    | GenAction.applyAdjustment p => (handleApplyAdjustment svc p s).state
    | GenAction.removeBackground => (handleRemoveBackground svc s).state
    | GenAction.combineSubmit p => (handleCombineGenerate svc p s).state
  else s

/-- The history invariant of spec §3: the cursor is `-1` exactly on the empty
history, otherwise a valid index. -/
def historyInv (hist : List ImgFile) (idx : Int) : Prop :=
  (hist = [] ∧ idx = -1) ∨ (hist ≠ [] ∧ 0 ≤ idx ∧ idx < (hist.length : Int))

instance (hist : List ImgFile) (idx : Int) : Decidable (historyInv hist idx) := by
  unfold historyInv
  infer_instance

/-- Both histories of the app state satisfy the history invariant. -/
def stateInv (s : AppState) : Prop :=
  historyInv s.editorHistory s.editorHistoryIndex ∧
  historyInv s.destinationHistory s.destinationHistoryIndex

instance (s : AppState) : Decidable (stateInv s) := by
  unfold stateInv
  infer_instance

/-!
The upscale pipeline (App.tsx lines 19-143).  Both functions run in the
browser against opaque image bytes; the environment record below captures the
outcome of every external step a run can take (network fetch, AI upscale
call, image decoding, canvas context creation, blob encoding) together with
the observable metadata (reference dimensions, MIME types).
-/

/-- An output image file: name, pixel dimensions and MIME type. -/
structure ImageFile where
  name : String
  width : Nat
  height : Nat
  mime : String
  deriving DecidableEq, Repr

/-- One run's external-world outcomes for the upscale pipeline. -/
structure UpscaleEnv where
  /-- `fetch(lowResDataUrl)` resolves with `response.ok` and `response.blob()` succeeds. -/
  fetchOk : Bool
  /-- `lowResBlob.type`, the MIME type of the fetched low-res blob. -/
  lowResBlobType : String
  /-- The MIME type parsed from the `data:` URL prefix by
  `lowResDataUrl.split(',')[0].match(...)` in `simpleUpscaleImageFile`
  (`none` when the regex does not match). -/
  lowResUrlMime : Option String
  /-- Outcome of `generateUpscaledImage(lowResFile)` (the AI upscale call). -/
  aiUpscaleResult : Except String Unit
  /-- The AI-upscaled data URL decodes as an image (`aiUpscaledImage.onload`
  rather than `.onerror` fires). -/
  aiOutputDecodable : Bool
  /-- The low-resolution data URL decodes as an image. -/
  lowResDecodable : Bool
  /-- The high-resolution reference file decodes as an image. -/
  refDecodable : Bool
  /-- `highResImage.naturalWidth`. -/
  refWidth : Nat
  /-- `highResImage.naturalHeight`. -/
  refHeight : Nat
  /-- `canvas.getContext('2d')` returns a context. -/
  ctxOk : Bool
  /-- `canvas.toBlob` produces a blob. -/
  blobOk : Bool
  deriving Repr

/-- `simpleUpscaleImageFile` (App.tsx lines 19-70): decode the reference and
the low-res image, draw the low-res image onto a canvas sized to the
reference's natural dimensions, and wrap the blob as a `File` whose type is
the MIME parsed from the data URL (default `image/png`).  When both decodes
fail the promise settles with whichever `onerror` fires first; the model
deterministically reports the reference failure (event order is not
modelled and no claim depends on it). -/
def simpleUpscaleImageFile (env : UpscaleEnv) (filename : String) : Except String ImageFile :=
  if !env.refDecodable then
    Except.error "Falha ao carregar a imagem original de alta resolução."
  else if !env.lowResDecodable then
    Except.error "Falha ao carregar a imagem editada de baixa resolução."
  else if !env.ctxOk then
    Except.error "Não foi possível criar o contexto do canvas para redimensionamento."
  else if !env.blobOk then
    Except.error "Falha ao criar o blob da imagem redimensionada."
  else
    Except.ok ⟨filename, env.refWidth, env.refHeight, env.lowResUrlMime.getD "image/png"⟩

/-- `createUpscaledImageFile` (App.tsx lines 74-143).  The `try/catch` around
the awaited section covers the fetch of the low-res data URL and the
`generateUpscaledImage` call: a throw or rejection there lands in the `catch`
block, which falls back to `simpleUpscaleImageFile`.  The subsequent image
`onload`/`onerror` callbacks run after the `try` block has finished, and on
failure they call `reject` directly — an undecodable reference or AI output,
a missing canvas context or a failed `toBlob` all reject the pipeline
promise without reaching the fallback. -/
def createUpscaledImageFile (env : UpscaleEnv) (filename : String) : Except String ImageFile :=
  let stage1 : Except String Unit :=
    if !env.fetchOk then
      Except.error "Falha ao buscar a imagem de baixa resolução para aprimoramento."
    else env.aiUpscaleResult
  match stage1 with
  | Except.error _ => simpleUpscaleImageFile env filename
  | Except.ok _ =>
    if !env.refDecodable then
      Except.error "Falha ao carregar a imagem original de alta resolução."
    else if !env.aiOutputDecodable then
      Except.error "Falha ao carregar a imagem aprimorada pela IA."
    else if !env.ctxOk then
      Except.error "Não foi possível criar o contexto do canvas para redimensionamento final."
    else if !env.blobOk then
      Except.error "Falha ao criar o blob da imagem redimensionada."
    else
      Except.ok ⟨filename, env.refWidth, env.refHeight, env.lowResBlobType⟩

end PixShop

namespace Gemini

/-- `inlineData` of a response part: base64 payload plus MIME type. -/
structure InlineData where
  mimeType : String
  data : String
  deriving DecidableEq, Repr

/-- One part of a candidate's content (text parts carry no `inlineData`). -/
structure ResponsePart where
  inlineData : Option InlineData
  deriving DecidableEq, Repr

/-- One response candidate: its content parts and optional finish reason.
A candidate with absent `content`/`parts` behaves like an empty parts list
(the optional chaining makes `find` come up empty either way). -/
structure Candidate where
  parts : List ResponsePart
  finishReason : Option String
  deriving DecidableEq, Repr

/-- `promptFeedback` of a response. -/
structure PromptFeedback where
  blockReason : Option String
  blockReasonMessage : Option String
  deriving DecidableEq, Repr

/-- A `GenerateContentResponse` as consumed by `handleApiResponse`
(services/geminiService.ts lines 42-89): prompt feedback, candidate list
(absent modelled as `[]`) and the aggregated `text` accessor. -/
structure GenResponse where
  promptFeedback : Option PromptFeedback
  candidates : List Candidate
  text : Option String
  deriving DecidableEq, Repr

/-- `contextMap[context] || context` (geminiService.ts lines 46-54). -/
def contextTranslate (context : String) : String :=
  if context = "edit" then "edição"
  else if context = "filter" then "filtro"
  else if context = "adjustment" then "ajuste"
  else if context = "background-removal" then "remoção de fundo"
  else if context = "combine" then "combinação"
  else if context = "upscaling" then "aprimoramento de resolução"
  else context

/-- `response.candidates?.[0]?.content?.parts?.find(part => part.inlineData)`
followed by `?.inlineData` (geminiService.ts lines 65-67): only the FIRST
candidate's parts are searched. -/
def findImagePart (r : GenResponse) : Option InlineData :=
  (r.candidates.head?.bind fun c =>
    c.parts.find? fun p => p.inlineData.isSome).bind fun p => p.inlineData

/-- The error thrown when no image part is present and the finish reason is
normal (geminiService.ts lines 81-88); quotes the trimmed response text when
it is non-empty. -/
def noImageError (r : GenResponse) (translatedContext : String) : Except String String :=
  let generic :=
    "Isso pode acontecer devido a filtros de segurança ou se a solicitação for muito complexa. Tente reformular seu comando para ser mais direto."
  Except.error ("O modelo de IA não retornou uma imagem para o " ++ translatedContext ++ ". " ++
    (match r.text.map String.trim with
     | some t => if t = "" then generic else "O modelo respondeu com o texto: \"" ++ t ++ "\""
     | none => generic))

/-- Steps 2 and 3 of `handleApiResponse`, reached only when no block reason
was found: return the data URL of the first candidate's inline image part, or
throw the finish-reason / no-image error. -/
def responseWithoutBlock (r : GenResponse) (translatedContext : String) : Except String String :=
  match findImagePart r with
  | some d => Except.ok ("data:" ++ d.mimeType ++ ";base64," ++ d.data)
  | none =>
    match r.candidates.head?.bind Candidate.finishReason with
    | some finishReason =>
        if finishReason != "STOP" then
          Except.error ("A geração de imagem para " ++ translatedContext ++
            " parou inesperadamente. Motivo: " ++ finishReason ++
            ". Isso geralmente está relacionado às configurações de segurança.")
        else noImageError r translatedContext
    | none => noImageError r translatedContext

/-- `handleApiResponse` (geminiService.ts lines 42-89): the policy-block
check runs first and throws even when an image part is present; otherwise the
first candidate's parts are searched for inline image data. -/
def handleApiResponse (r : GenResponse) (context : String) : Except String String :=
  let translatedContext := contextTranslate context
  match r.promptFeedback with
  | some pf =>
    match pf.blockReason with
    | some blockReason =>
        Except.error ("A solicitação foi bloqueada. Motivo: " ++ blockReason ++ ". " ++
          pf.blockReasonMessage.getD "")
    | none => responseWithoutBlock r translatedContext
  | none => responseWithoutBlock r translatedContext

/-- The block reason of a response, through the optional chaining
`response.promptFeedback?.blockReason`. -/
def blockReasonOf (r : GenResponse) : Option String :=
  r.promptFeedback.bind PromptFeedback.blockReason

end Gemini

namespace PixShop

/-- The initial component state: all `useState` initial values
(App.tsx lines 157-178). -/
def initialState : AppState :=
  { mode := AppMode.start
    isLoading := false
    loadingMessage := ""
    error := none
    editorHistory := []
    editorHistoryIndex := -1
    prompt := ""
    editHotspot := none
    displayHotspot := none
    activeTab := Tab.retouch
    sourceImage := none
    destinationHistory := []
    destinationHistoryIndex := -1
    sourceSelection := none
    destinationTarget := none
    displaySourceSelection := none
    displayDestinationTarget := none }

/-- Editor session with history `[s0, s1, s2]` (tags 0, 1, 2) and cursor 2,
the configuration of the branch-on-write scenario of spec §8. -/
def branchState : AppState :=
  { initialState with
      mode := AppMode.editor
      editorHistory := [0, 1, 2]
      editorHistoryIndex := 2 }

/-- Editor session at the original upload: history `[5]`, cursor 0. -/
def atOriginalState : AppState :=
  { initialState with
      mode := AppMode.editor
      editorHistory := [5]
      editorHistoryIndex := 0 }

/-- Editor session at the last snapshot: history `[5, 6]`, cursor 1. -/
def atLastState : AppState :=
  { initialState with
      mode := AppMode.editor
      editorHistory := [5, 6]
      editorHistoryIndex := 1 }

/-- Editor session with a hotspot selected at native point (1, 2). -/
def hotspotState : AppState :=
  { initialState with
      mode := AppMode.editor
      editorHistory := [0]
      editorHistoryIndex := 0
      editHotspot := some ⟨1, 2⟩
      displayHotspot := some ⟨1, 2⟩ }

/-- Editor session with a hotspot selected and a non-blank prompt, ready for
a retouch generation. -/
def genReadyState : AppState :=
  { initialState with
      mode := AppMode.editor
      editorHistory := [0]
      editorHistoryIndex := 0
      editHotspot := some ⟨1, 2⟩
      displayHotspot := some ⟨1, 2⟩
      prompt := "make it blue" }

/-- Editor session whose generation chain is currently in flight. -/
def busyState : AppState :=
  { initialState with
      mode := AppMode.editor
      editorHistory := [0]
      editorHistoryIndex := 0
      isLoading := true
      prompt := "add a hat" }

/-- Combine session missing the source selection point (everything else is
present); used to exercise the combine precondition guard. -/
def missingSelectionState : AppState :=
  { initialState with
      mode := AppMode.combine
      sourceImage := some 1
      destinationHistory := [2]
      destinationHistoryIndex := 0
      sourceSelection := none
      destinationTarget := some ⟨3, 4⟩
      displayDestinationTarget := some ⟨3, 4⟩ }

/-- A service environment in which every external call succeeds; the upscale
pipeline yields the file tagged 7. -/
def okSvc : TransformSvc :=
  { generateEditedImage := fun _ _ _ => Except.ok "data:image/png;base64,edited"
    generateAdjustedImage := fun _ _ => Except.ok "data:image/png;base64,adjusted"
    generateFilteredImage := fun _ _ => Except.ok "data:image/png;base64,filtered"
    generateBackgroundImageRemoved := fun _ => Except.ok "data:image/png;base64,nobg"
    combineImages := fun _ _ _ _ _ => Except.ok "data:image/png;base64,combined"
    createUpscaledImageFile := fun _ _ => Except.ok 7 }

/-- A service environment in which every transform call is rejected. -/
def failSvc : TransformSvc :=
  { generateEditedImage := fun _ _ _ => Except.error "taxa excedida"
    generateAdjustedImage := fun _ _ => Except.error "taxa excedida"
    generateFilteredImage := fun _ _ => Except.error "taxa excedida"
    generateBackgroundImageRemoved := fun _ => Except.error "taxa excedida"
    combineImages := fun _ _ _ _ _ => Except.error "taxa excedida"
    createUpscaledImageFile := fun _ _ => Except.error "taxa excedida" }

/-- Upscale-pipeline run in which the AI stage succeeds but its output does
not decode, while the low-res image and the reference are perfectly fine. -/
def aiUndecodableEnv : UpscaleEnv :=
  { fetchOk := true
    lowResBlobType := "image/png"
    lowResUrlMime := some "image/png"
    aiUpscaleResult := Except.ok ()
    aiOutputDecodable := false
    lowResDecodable := true
    refDecodable := true
    refWidth := 800
    refHeight := 600
    ctxOk := true
    blobOk := true }

/-- Upscale-pipeline run in which the AI upscale call itself is rejected and
everything else works. -/
def aiRejectedEnv : UpscaleEnv :=
  { aiUndecodableEnv with
      aiUpscaleResult := Except.error "quota"
      aiOutputDecodable := true }

/-- The example pointer geometry of spec §8: natural 2000×1000, rendered
1000×500, pointer offset (100, 50). -/
def exGeom : ClickGeom :=
  { offsetX := 100
    offsetY := 50
    naturalWidth := 2000
    naturalHeight := 1000
    clientWidth := 1000
    clientHeight := 500 }

end PixShop

namespace Gemini

/-- Response with no block reason whose FIRST candidate carries no image while
the SECOND one does. -/
def secondCandidateResp : GenResponse :=
  { promptFeedback := none
    candidates :=
      [ { parts := [ { inlineData := none } ], finishReason := some "STOP" },
        { parts := [ { inlineData := some { mimeType := "image/png", data := "AAAA" } } ],
          finishReason := some "STOP" } ]
    text := none }

/-- Response that is policy-blocked AND carries an inline image part. -/
def blockedWithImageResp : GenResponse :=
  { promptFeedback := some { blockReason := some "SAFETY", blockReasonMessage := none }
    candidates :=
      [ { parts := [ { inlineData := some { mimeType := "image/png", data := "BBBB" } } ],
          finishReason := some "STOP" } ]
    text := none }

end Gemini

namespace PixShop

lemma historyInv_append (hist : List ImgFile) (idx : Int) (f : ImgFile) :
    historyInv (jsSliceTo hist (idx + 1) ++ [f])
      ((jsSliceTo hist (idx + 1) ++ [f]).length - 1) := by
  right
  refine ⟨by simp, ?_, ?_⟩ <;> simp [List.length_append]

lemma head?_slice_append (hist : List ImgFile) (idx : Int) (f : ImgFile)
    (hne : hist ≠ []) (h0 : 0 ≤ idx) :
    (jsSliceTo hist (idx + 1) ++ [f]).head? = hist.head? := by
  rcases hist with _ | ⟨a, as⟩
  · exact absurd rfl hne
  · have h1 : (0 : Int) ≤ idx + 1 := by omega
    have h2 : (idx + 1).toNat = idx.toNat + 1 := by omega
    simp [jsSliceTo, h1, h2, List.take_succ_cons]

/-- C1: for every history and cursor, appending a snapshot truncates the list
to the prefix `[0..cursor]`, pushes the new snapshot and sets the cursor to
the new last index — for the editor history and the destination history alike;
in particular, starting from history `[s0, s1, s2]` with cursor 2 (snapshots
tagged 0, 1, 2), `undo` followed by `append s3` (tag 3) yields history
`[s0, s1, s3]` with cursor 2, and `s2` is no longer present, so no sequence of
redos can reach it. -/
theorem append_truncates_pushes_advances (s : AppState) (f : ImgFile)
    (he : -1 ≤ s.editorHistoryIndex) (hd : -1 ≤ s.destinationHistoryIndex) :
    ((addImageToEditorHistory s f).editorHistory
        = s.editorHistory.take (s.editorHistoryIndex + 1).toNat ++ [f] ∧
      (addImageToEditorHistory s f).editorHistoryIndex
        = ((s.editorHistory.take (s.editorHistoryIndex + 1).toNat ++ [f]).length : Int) - 1) ∧
    ((addImageToDestinationHistory s f).destinationHistory
        = s.destinationHistory.take (s.destinationHistoryIndex + 1).toNat ++ [f] ∧
      (addImageToDestinationHistory s f).destinationHistoryIndex
        = ((s.destinationHistory.take (s.destinationHistoryIndex + 1).toNat ++ [f]).length : Int) - 1) ∧
    ((addImageToEditorHistory (handleUndo branchState) 3).editorHistory = [0, 1, 3] ∧
      (addImageToEditorHistory (handleUndo branchState) 3).editorHistoryIndex = 2 ∧
      2 ∉ (addImageToEditorHistory (handleUndo branchState) 3).editorHistory ∧
      canRedo (addImageToEditorHistory (handleUndo branchState) 3) = false) := by
  have he1 : (0 : Int) ≤ s.editorHistoryIndex + 1 := by omega
  have hd1 : (0 : Int) ≤ s.destinationHistoryIndex + 1 := by omega
  refine ⟨⟨?_, ?_⟩, ⟨?_, ?_⟩, by decide⟩ <;>
    simp [addImageToEditorHistory, addImageToDestinationHistory, jsSliceTo, he1, hd1]

/-- Witness for C1 at a concrete input: editor history `[9]`, cursor 0,
appending tag 4 keeps the original and pushes the new snapshot. -/
theorem append_truncates_pushes_advances_witness :
    (addImageToEditorHistory atOriginalState 4).editorHistory
      = atOriginalState.editorHistory.take (atOriginalState.editorHistoryIndex + 1).toNat ++ [4] :=
  (append_truncates_pushes_advances atOriginalState 4 (by decide) (by decide)).1.1

/-- C5: every controller operation — start-editor / start-combine
initialization, append, undo, redo, reset and go-to-start — preserves the
history invariant (cursor `-1` exactly on the empty history, otherwise
`0 ≤ cursor < length`), and none of the non-initializing operations removes or
replaces the snapshot at index 0. -/
theorem controller_ops_preserve_invariant (s : AppState) (f g : ImgFile)
    (hs : stateInv s) :
    stateInv (handleStartEditor s f) ∧
    stateInv (handleStartCombine s f g) ∧
    stateInv (handleGoToStart s) ∧
    stateInv (addImageToEditorHistory s f) ∧
    stateInv (addImageToDestinationHistory s f) ∧
    stateInv (handleUndo s) ∧
    stateInv (handleRedo s) ∧
    stateInv (handleReset s) ∧
    stateInv (handleUndoCombine s) ∧
    stateInv (handleRedoCombine s) ∧
    (s.editorHistory ≠ [] →
      (addImageToEditorHistory s f).editorHistory.head? = s.editorHistory.head?) ∧
    (s.destinationHistory ≠ [] →
      (addImageToDestinationHistory s f).destinationHistory.head? = s.destinationHistory.head?) ∧
    (handleUndo s).editorHistory = s.editorHistory ∧
    (handleRedo s).editorHistory = s.editorHistory ∧
    (handleReset s).editorHistory = s.editorHistory ∧
    (handleUndoCombine s).destinationHistory = s.destinationHistory ∧
    (handleRedoCombine s).destinationHistory = s.destinationHistory := by
  obtain ⟨hsE, hsD⟩ := hs
  have single : ∀ x : ImgFile, historyInv [x] 0 := by
    intro x
    exact Or.inr ⟨by simp, le_refl 0, by norm_num⟩
  have empty : historyInv [] (-1) := Or.inl ⟨rfl, rfl⟩
  refine ⟨⟨single f, hsD⟩, ⟨hsE, single g⟩, ⟨empty, empty⟩,
    ⟨historyInv_append _ _ _, hsD⟩, ⟨hsE, historyInv_append _ _ _⟩,
    ?_, ?_, ?_, ?_, ?_, ?_, ?_, ?_, ?_, ?_, ?_, ?_⟩
  · -- handleUndo preserves the invariant
    by_cases h : canUndo s
    · have h' : 0 < s.editorHistoryIndex := by
        simpa [canUndo] using h
      simp only [stateInv]
      simp only [handleUndo, h, if_true]
      refine ⟨?_, hsD⟩
      rcases hsE with ⟨h1, h2⟩ | ⟨h1, h2, h3⟩
      · exact absurd h2 (by omega)
      · exact Or.inr ⟨h1, by omega, by omega⟩
    · simpa [stateInv, handleUndo, h] using And.intro hsE hsD
  · -- handleRedo preserves the invariant
    by_cases h : canRedo s
    · have h' : s.editorHistoryIndex < (s.editorHistory.length : Int) - 1 := by
        simpa [canRedo] using h
      simp only [stateInv]
      simp only [handleRedo, h, if_true]
      refine ⟨?_, hsD⟩
      rcases hsE with ⟨h1, h2⟩ | ⟨h1, h2, h3⟩
      · rw [h1] at h'
        simp at h'
        exact absurd h2 (by omega)
      · exact Or.inr ⟨h1, by omega, by omega⟩
    · simpa [stateInv, handleRedo, h] using And.intro hsE hsD
  · -- handleReset preserves the invariant
    by_cases h : 0 < s.editorHistory.length
    · simp only [stateInv]
      simp only [handleReset, h, if_true]
      refine ⟨Or.inr ⟨List.length_pos.mp h, le_refl 0, by exact_mod_cast h⟩, hsD⟩
    · simpa [stateInv, handleReset, h] using And.intro hsE hsD
  · -- handleUndoCombine preserves the invariant
    by_cases h : canUndoCombine s
    · have h' : 0 < s.destinationHistoryIndex := by
        simpa [canUndoCombine] using h
      simp only [stateInv]
      simp only [handleUndoCombine, h, if_true]
      refine ⟨hsE, ?_⟩
      rcases hsD with ⟨h1, h2⟩ | ⟨h1, h2, h3⟩
      · exact absurd h2 (by omega)
      · exact Or.inr ⟨h1, by omega, by omega⟩
    · simpa [stateInv, handleUndoCombine, h] using And.intro hsE hsD
  · -- handleRedoCombine preserves the invariant
    by_cases h : canRedoCombine s
    · have h' : s.destinationHistoryIndex < (s.destinationHistory.length : Int) - 1 := by
        simpa [canRedoCombine] using h
      simp only [stateInv]
      simp only [handleRedoCombine, h, if_true]
      refine ⟨hsE, ?_⟩
      rcases hsD with ⟨h1, h2⟩ | ⟨h1, h2, h3⟩
      · rw [h1] at h'
        simp at h'
        exact absurd h2 (by omega)
      · exact Or.inr ⟨h1, by omega, by omega⟩
    · simpa [stateInv, handleRedoCombine, h] using And.intro hsE hsD
  · -- append keeps editor index 0
    intro hne
    have h0 : 0 ≤ s.editorHistoryIndex := by
      rcases hsE with ⟨h1, _⟩ | ⟨_, h2, _⟩
      · exact absurd h1 hne
      · exact h2
    exact head?_slice_append _ _ _ hne h0
  · -- append keeps destination index 0
    intro hne
    have h0 : 0 ≤ s.destinationHistoryIndex := by
      rcases hsD with ⟨h1, _⟩ | ⟨_, h2, _⟩
      · exact absurd h1 hne
      · exact h2
    exact head?_slice_append _ _ _ hne h0
  · by_cases h : canUndo s <;> simp [handleUndo, h]
  · by_cases h : canRedo s <;> simp [handleRedo, h]
  · by_cases h : 0 < s.editorHistory.length <;> simp [handleReset, h]
  · by_cases h : canUndoCombine s <;> simp [handleUndoCombine, h]
  · by_cases h : canRedoCombine s <;> simp [handleRedoCombine, h]

/-- Witness for C5 at the concrete state with editor history `[0,1,2]`,
cursor 2, and empty destination history. -/
theorem controller_ops_preserve_invariant_witness :
    stateInv (handleUndo branchState) ∧ (handleUndo branchState).editorHistory = [0, 1, 2] :=
  ⟨(controller_ops_preserve_invariant branchState 3 4 (by decide)).2.2.2.2.2.1,
   (controller_ops_preserve_invariant branchState 3 4 (by decide)).2.2.2.2.2.2.2.2.2.2.2.2.1⟩

lemma handleGenerate_anatomy (svc : TransformSvc) (s : AppState) :
    ∀ out : HandlerOut, handleGenerate svc s = out →
      (out.appended = true →
        out.state.editHotspot = none ∧ out.state.displayHotspot = none) ∧
      (out.appended = false →
        out.state.editorHistory = s.editorHistory ∧
        out.state.editorHistoryIndex = s.editorHistoryIndex) ∧
      out.state.destinationHistory = s.destinationHistory ∧
      out.state.destinationHistoryIndex = s.destinationHistoryIndex ∧
      (out.serviceCalled = true → out.appended = false → out.state.error.isSome = true) := by
  intro out hout
  unfold handleGenerate at hout
  dsimp only at hout
  repeat' split at hout
  all_goals subst hout
  all_goals simp [addImageToEditorHistory]

lemma handleApplyFilter_anatomy (svc : TransformSvc) (p : String) (s : AppState) :
    ∀ out : HandlerOut, handleApplyFilter svc p s = out →
      out.state.editHotspot = s.editHotspot ∧
      out.state.displayHotspot = s.displayHotspot ∧
      (out.appended = false →
        out.state.editorHistory = s.editorHistory ∧
        out.state.editorHistoryIndex = s.editorHistoryIndex) ∧
      out.state.destinationHistory = s.destinationHistory ∧
      out.state.destinationHistoryIndex = s.destinationHistoryIndex ∧
      (out.serviceCalled = true → out.appended = false → out.state.error.isSome = true) := by
  intro out hout
  unfold handleApplyFilter at hout
  dsimp only at hout
  repeat' split at hout
  all_goals subst hout
  all_goals simp [addImageToEditorHistory]

lemma handleApplyAdjustment_anatomy (svc : TransformSvc) (p : String) (s : AppState) :
    ∀ out : HandlerOut, handleApplyAdjustment svc p s = out →
      out.state.editHotspot = s.editHotspot ∧
      out.state.displayHotspot = s.displayHotspot ∧
      (out.appended = false →
        out.state.editorHistory = s.editorHistory ∧
        out.state.editorHistoryIndex = s.editorHistoryIndex) ∧
      out.state.destinationHistory = s.destinationHistory ∧
      out.state.destinationHistoryIndex = s.destinationHistoryIndex ∧
      (out.serviceCalled = true → out.appended = false → out.state.error.isSome = true) := by
  intro out hout
  unfold handleApplyAdjustment at hout
  dsimp only at hout
  repeat' split at hout
  all_goals subst hout
  all_goals simp [addImageToEditorHistory]

lemma handleRemoveBackground_anatomy (svc : TransformSvc) (s : AppState) :
    ∀ out : HandlerOut, handleRemoveBackground svc s = out →
      out.state.editHotspot = s.editHotspot ∧
      out.state.displayHotspot = s.displayHotspot ∧
      (out.appended = false →
        out.state.editorHistory = s.editorHistory ∧
        out.state.editorHistoryIndex = s.editorHistoryIndex) ∧
      out.state.destinationHistory = s.destinationHistory ∧
      out.state.destinationHistoryIndex = s.destinationHistoryIndex ∧
      (out.serviceCalled = true → out.appended = false → out.state.error.isSome = true) := by
  intro out hout
  unfold handleRemoveBackground at hout
  dsimp only at hout
  repeat' split at hout
  all_goals subst hout
  all_goals simp [addImageToEditorHistory]

lemma handleCombineGenerate_anatomy (svc : TransformSvc) (ep : String) (s : AppState) :
    ∀ out : HandlerOut, handleCombineGenerate svc ep s = out →
      (out.appended = false →
        out.state.destinationHistory = s.destinationHistory ∧
        out.state.destinationHistoryIndex = s.destinationHistoryIndex) ∧
      out.state.editorHistory = s.editorHistory ∧
      out.state.editorHistoryIndex = s.editorHistoryIndex ∧
      (out.serviceCalled = true → out.appended = false → out.state.error.isSome = true) := by
  intro out hout
  unfold handleCombineGenerate at hout
  dsimp only at hout
  repeat' split at hout
  all_goals subst hout
  all_goals simp [addImageToDestinationHistory]

/-- C2: the combine operation requires a non-null source image, a non-null
current destination image, a non-null source selection, a non-null
destination target and non-blank element description text; when any one of
them is missing it records a precondition error and returns — the
combine-two-images service is not invoked and the destination history and its
cursor are untouched. -/
theorem combine_preconditions_guard (svc : TransformSvc) (s : AppState) (ep : String)
    (hmiss : s.sourceImage = none ∨ currentDestinationImage s = none ∨
      s.sourceSelection = none ∨ s.destinationTarget = none ∨ jsTrimEmpty ep = true) :
    (handleCombineGenerate svc ep s).serviceCalled = false ∧
    (handleCombineGenerate svc ep s).appended = false ∧
    (handleCombineGenerate svc ep s).state.destinationHistory = s.destinationHistory ∧
    (handleCombineGenerate svc ep s).state.destinationHistoryIndex = s.destinationHistoryIndex ∧
    ((handleCombineGenerate svc ep s).state.error
        = some "Por favor, selecione um elemento de origem e um local de destino antes de combinar." ∨
      (handleCombineGenerate svc ep s).state.error
        = some "Por favor, descreva o elemento que você deseja mover.") := by
  have H : ∀ out : HandlerOut, handleCombineGenerate svc ep s = out →
      out.serviceCalled = false ∧ out.appended = false ∧
      out.state.destinationHistory = s.destinationHistory ∧
      out.state.destinationHistoryIndex = s.destinationHistoryIndex ∧
      (out.state.error
          = some "Por favor, selecione um elemento de origem e um local de destino antes de combinar." ∨
        out.state.error
          = some "Por favor, descreva o elemento que você deseja mover.") := by
    intro out hout
    unfold handleCombineGenerate at hout
    split at hout
    · rename_i src dst ss dt odst hsrc hdst hss hdt hodst
      split at hout
      · subst hout
        simp
      · rename_i hep
        exfalso
        rcases hmiss with h | h | h | h | h
        · rw [hsrc] at h
          exact Option.noConfusion h
        · rw [hdst] at h
          exact Option.noConfusion h
        · rw [hss] at h
          exact Option.noConfusion h
        · rw [hdt] at h
          exact Option.noConfusion h
        · exact hep h
    · subst hout
      simp
  exact H _ rfl

/-- Witness for C2 at a concrete combine state in which only the source
selection is missing: the service is not called and the destination history
is unchanged. -/
theorem combine_preconditions_guard_witness :
    (handleCombineGenerate okSvc "the orange cat" missingSelectionState).serviceCalled = false ∧
    (handleCombineGenerate okSvc "the orange cat" missingSelectionState).state.destinationHistory
      = missingSelectionState.destinationHistory := by
  have h := combine_preconditions_guard okSvc missingSelectionState "the orange cat"
    (Or.inr (Or.inr (Or.inl rfl)))
  exact ⟨h.1, h.2.2.1⟩

/-- C4: for every editor-mode or combine-mode generation operation, if the
transform-service call or the upscale pipeline fails, the relevant edit
history and its cursor are left completely unchanged — no snapshot is
appended — and the failure is recorded in the error slot.  (`serviceCalled =
true` states that the run got past its precondition checks and invoked the
service; `appended = false` states that no snapshot was appended, which on
such a run happens exactly when the transform call or the upscale pipeline
failed.) -/
theorem generation_failure_preserves_history (svc : TransformSvc)
    (fp ap ep : String) (s : AppState) :
    ((handleGenerate svc s).serviceCalled = true → (handleGenerate svc s).appended = false →
      (handleGenerate svc s).state.editorHistory = s.editorHistory ∧
      (handleGenerate svc s).state.editorHistoryIndex = s.editorHistoryIndex ∧
      (handleGenerate svc s).state.error.isSome = true) ∧
    ((handleApplyFilter svc fp s).serviceCalled = true →
        (handleApplyFilter svc fp s).appended = false →
      (handleApplyFilter svc fp s).state.editorHistory = s.editorHistory ∧
      (handleApplyFilter svc fp s).state.editorHistoryIndex = s.editorHistoryIndex ∧
      (handleApplyFilter svc fp s).state.error.isSome = true) ∧
    ((handleApplyAdjustment svc ap s).serviceCalled = true →
        (handleApplyAdjustment svc ap s).appended = false →
      (handleApplyAdjustment svc ap s).state.editorHistory = s.editorHistory ∧
      (handleApplyAdjustment svc ap s).state.editorHistoryIndex = s.editorHistoryIndex ∧
      (handleApplyAdjustment svc ap s).state.error.isSome = true) ∧
    ((handleRemoveBackground svc s).serviceCalled = true →
        (handleRemoveBackground svc s).appended = false →
      (handleRemoveBackground svc s).state.editorHistory = s.editorHistory ∧
      (handleRemoveBackground svc s).state.editorHistoryIndex = s.editorHistoryIndex ∧
      (handleRemoveBackground svc s).state.error.isSome = true) ∧
    ((handleCombineGenerate svc ep s).serviceCalled = true →
        (handleCombineGenerate svc ep s).appended = false →
      (handleCombineGenerate svc ep s).state.destinationHistory = s.destinationHistory ∧
      (handleCombineGenerate svc ep s).state.destinationHistoryIndex = s.destinationHistoryIndex ∧
      (handleCombineGenerate svc ep s).state.error.isSome = true) := by
  have hg := handleGenerate_anatomy svc s _ rfl
  have hf := handleApplyFilter_anatomy svc fp s _ rfl
  have ha := handleApplyAdjustment_anatomy svc ap s _ rfl
  have hb := handleRemoveBackground_anatomy svc s _ rfl
  have hc := handleCombineGenerate_anatomy svc ep s _ rfl
  refine ⟨?_, ?_, ?_, ?_, ?_⟩
  · intro h1 h2
    exact ⟨(hg.2.1 h2).1, (hg.2.1 h2).2, hg.2.2.2.2 h1 h2⟩
  · intro h1 h2
    exact ⟨(hf.2.2.1 h2).1, (hf.2.2.1 h2).2, hf.2.2.2.2.2 h1 h2⟩
  · intro h1 h2
    exact ⟨(ha.2.2.1 h2).1, (ha.2.2.1 h2).2, ha.2.2.2.2.2 h1 h2⟩
  · intro h1 h2
    exact ⟨(hb.2.2.1 h2).1, (hb.2.2.1 h2).2, hb.2.2.2.2.2 h1 h2⟩
  · intro h1 h2
    exact ⟨(hc.1 h2).1, (hc.1 h2).2, hc.2.2.2 h1 h2⟩

/-- Witness for C4 at a concrete input: with every service call rejected,
applying a filter from the state at the original upload leaves the history
and cursor unchanged and records an error. -/
theorem generation_failure_preserves_history_witness :
    (handleApplyFilter failSvc "vintage" atOriginalState).state.editorHistory
        = atOriginalState.editorHistory ∧
    (handleApplyFilter failSvc "vintage" atOriginalState).state.error.isSome = true := by
  have h := (generation_failure_preserves_history failSvc "vintage" "a" "e" atOriginalState).2.1
    (by decide) (by decide)
  exact ⟨h.1, h.2.2⟩

/-- C7 (counterexample to the claim as stated): `undo` at cursor 0 and `redo`
at the last index leave the whole state — the single error slot included —
completely unchanged; since the error slot of these states is `none` and stays
`none`, no "nothing to undo"/"nothing to redo" failure is ever reported,
contrary to the claim. -/
theorem undo_redo_at_bounds_report_nothing :
    handleUndo atOriginalState = atOriginalState ∧
    (handleUndo atOriginalState).error = none ∧
    handleRedo atLastState = atLastState ∧
    (handleRedo atLastState).error = none := by
  decide

/-- C7 (amended): `undo` at cursor 0 and `redo` at the last index are silent
no-ops — the history sequence, cursor, and every other state field are
unchanged, and no failure is recorded; the impossibility is signalled only
through the `canUndo` / `canRedo` flags being false (the UI renders the
buttons disabled). -/
theorem undo_redo_noop_at_bounds (s t : AppState)
    (hs : s.editorHistoryIndex = 0)
    (ht : t.editorHistoryIndex = (t.editorHistory.length : Int) - 1) :
    handleUndo s = s ∧ canUndo s = false ∧
    handleRedo t = t ∧ canRedo t = false := by
  have h1 : canUndo s = false := by simp [canUndo, hs]
  have h2 : canRedo t = false := by simp [canRedo, ht]
  exact ⟨by simp [handleUndo, h1], h1, by simp [handleRedo, h2], h2⟩

/-- Witness for C7 (amended) at concrete states: history `[5]` cursor 0 for
undo, history `[5,6]` cursor 1 for redo. -/
theorem undo_redo_noop_at_bounds_witness :
    handleUndo atOriginalState = atOriginalState ∧ canUndo atOriginalState = false ∧
    handleRedo atLastState = atLastState ∧ canRedo atLastState = false :=
  undo_redo_noop_at_bounds atOriginalState atLastState (by decide) (by decide)

/-- C6: the coordinate mapper stores the raw pointer offset as the
display-space point and `round(offset * natural / client)` per axis as the
native-space point — in the retouch click handler and in both combine click
handlers — and under identity scaling the native point is the rounded display
point. -/
theorem coordinate_mapper_display_and_native (s : AppState) (g : ClickGeom)
    (ht : s.activeTab = Tab.retouch)
    (hw : g.clientWidth ≠ 0) (hh : g.clientHeight ≠ 0) :
    ((handleImageClick s g).displayHotspot = some ⟨g.offsetX, g.offsetY⟩ ∧
     (handleImageClick s g).editHotspot =
       some ⟨(jsRound (g.offsetX * g.naturalWidth / g.clientWidth) : ℚ),
             (jsRound (g.offsetY * g.naturalHeight / g.clientHeight) : ℚ)⟩) ∧
    ((handleImageClickForCombine s g ClickTarget.source).displaySourceSelection
        = some ⟨g.offsetX, g.offsetY⟩ ∧
     (handleImageClickForCombine s g ClickTarget.source).sourceSelection =
       some ⟨(jsRound (g.offsetX * g.naturalWidth / g.clientWidth) : ℚ),
             (jsRound (g.offsetY * g.naturalHeight / g.clientHeight) : ℚ)⟩) ∧
    ((handleImageClickForCombine s g ClickTarget.destination).displayDestinationTarget
        = some ⟨g.offsetX, g.offsetY⟩ ∧
     (handleImageClickForCombine s g ClickTarget.destination).destinationTarget =
       some ⟨(jsRound (g.offsetX * g.naturalWidth / g.clientWidth) : ℚ),
             (jsRound (g.offsetY * g.naturalHeight / g.clientHeight) : ℚ)⟩) ∧
    (g.clientWidth = g.naturalWidth → g.clientHeight = g.naturalHeight →
      (handleImageClick s g).editHotspot
        = some ⟨(jsRound g.offsetX : ℚ), (jsRound g.offsetY : ℚ)⟩) := by
  refine ⟨?_, ?_, ?_, ?_⟩
  · simp [handleImageClick, ht, mul_div_assoc]
  · simp [handleImageClickForCombine, mul_div_assoc]
  · simp [handleImageClickForCombine, mul_div_assoc]
  · intro hcw hch
    simp [handleImageClick, ht, ← hcw, ← hch, div_self hw, div_self hh]

/-- Witness for C6 at the spec §8 example: natural 2000×1000, rendered
1000×500, offset (100, 50) maps to native (200, 100) and display (100, 50). -/
theorem coordinate_mapper_display_and_native_witness :
    (handleImageClick initialState exGeom).editHotspot = some ⟨(200 : ℚ), (100 : ℚ)⟩ ∧
    (handleImageClick initialState exGeom).displayHotspot = some ⟨(100 : ℚ), (50 : ℚ)⟩ := by
  have h := coordinate_mapper_display_and_native initialState exGeom rfl
    (by norm_num [exGeom]) (by norm_num [exGeom])
  refine ⟨?_, h.1.1⟩
  rw [h.1.2]
  norm_num [jsRound, exGeom]

/-- C8 (counterexample to the claim as stated): applying a filter is a
generation operation, and on success it appends a snapshot to the history —
yet it leaves both hotspot fields exactly as they were.  Starting from a
state with hotspot (1, 2) selected, a successful filter run keeps the
hotspot, contradicting the claim that the selection is cleared after every
successful generation operation. -/
theorem filter_success_keeps_hotspot :
    (handleApplyFilter okSvc "vintage" hotspotState).appended = true ∧
    (handleApplyFilter okSvc "vintage" hotspotState).state.editorHistory = [0, 7] ∧
    (handleApplyFilter okSvc "vintage" hotspotState).state.editHotspot = some ⟨1, 2⟩ ∧
    (handleApplyFilter okSvc "vintage" hotspotState).state.displayHotspot = some ⟨1, 2⟩ := by
  decide

/-- C8 (amended): the hotspot selection (native and display points) is
cleared after every successful retouch/adjust generation triggered through
`handleGenerate`, after every effective undo, and after every reset — and the
clearing leaves the history sequence untouched; the other generation
operations (filter, adjustment preset, background removal) leave the hotspot
selection unchanged. -/
theorem hotspot_cleared_generate_undo_reset (svc : TransformSvc)
    (fp ap : String) (s : AppState) :
    ((handleGenerate svc s).appended = true →
      (handleGenerate svc s).state.editHotspot = none ∧
      (handleGenerate svc s).state.displayHotspot = none) ∧
    (canUndo s = true →
      (handleUndo s).editHotspot = none ∧
      (handleUndo s).displayHotspot = none ∧
      (handleUndo s).editorHistory = s.editorHistory) ∧
    (0 < s.editorHistory.length →
      (handleReset s).editHotspot = none ∧
      (handleReset s).displayHotspot = none ∧
      (handleReset s).editorHistory = s.editorHistory) ∧
    (handleApplyFilter svc fp s).state.editHotspot = s.editHotspot ∧
    (handleApplyFilter svc fp s).state.displayHotspot = s.displayHotspot ∧
    (handleApplyAdjustment svc ap s).state.editHotspot = s.editHotspot ∧
    (handleApplyAdjustment svc ap s).state.displayHotspot = s.displayHotspot ∧
    (handleRemoveBackground svc s).state.editHotspot = s.editHotspot ∧
    (handleRemoveBackground svc s).state.displayHotspot = s.displayHotspot := by
  have hg := handleGenerate_anatomy svc s _ rfl
  have hf := handleApplyFilter_anatomy svc fp s _ rfl
  have ha := handleApplyAdjustment_anatomy svc ap s _ rfl
  have hb := handleRemoveBackground_anatomy svc s _ rfl
  refine ⟨hg.1, ?_, ?_, hf.1, hf.2.1, ha.1, ha.2.1, hb.1, hb.2.1⟩
  · intro h
    simp [handleUndo, h]
  · intro h
    simp [handleReset, h]

/-- Witness for C8 (amended) at concrete inputs: a successful retouch
generation clears the hotspot, and reset from the hotspot state clears it
while keeping the history. -/
theorem hotspot_cleared_generate_undo_reset_witness :
    (handleGenerate okSvc genReadyState).state.editHotspot = none ∧
    (handleReset hotspotState).editHotspot = none ∧
    (handleReset hotspotState).editorHistory = hotspotState.editorHistory := by
  have h1 := (hotspot_cleared_generate_undo_reset okSvc "f" "a" genReadyState).1 (by decide)
  have h2 := (hotspot_cleared_generate_undo_reset okSvc "f" "a" hotspotState).2.2.1 (by decide)
  exact ⟨h1.1, h2.1, h2.2.2⟩

/-- C9: while a generation chain is in flight (`isLoading = true`), every
generation-triggering control — the retouch generate submit, the filter and
adjustment-preset buttons, the remove-background button and the combine
submit — is disabled, so the dispatch of any generation action leaves the
state unchanged and no second chain can start. -/
theorem busy_flag_gates_generation (svc : TransformSvc) (s : AppState) (a : GenAction)
    (hbusy : s.isLoading = true) :
    triggerEnabled s a = false ∧ dispatch svc s a = s := by
  have he : triggerEnabled s a = false := by
    cases a <;> simp [triggerEnabled, filterPanelButtonEnabled, hbusy]
  exact ⟨he, by simp [dispatch, he]⟩

/-- Witness for C9 at a concrete busy state and the generate-submit action. -/
theorem busy_flag_gates_generation_witness :
    triggerEnabled busyState GenAction.generateSubmit = false ∧
    dispatch okSvc busyState GenAction.generateSubmit = busyState :=
  busy_flag_gates_generation okSvc busyState GenAction.generateSubmit rfl

/-- C3 (counterexample to the claim as stated): in a run where the AI-upscale
call succeeds but its output image cannot be decoded — and the low-resolution
output and the reference image are both perfectly decodable — the pipeline
does NOT fall back to resampling the original low-resolution image: the
`onerror` callback rejects the promise directly (the `try/catch` that guards
the fallback has already been exited), so the pipeline fails instead of
resolving. -/
theorem upscale_no_fallback_on_undecodable_ai_output :
    aiUndecodableEnv.lowResDecodable = true ∧
    aiUndecodableEnv.refDecodable = true ∧
    aiUndecodableEnv.ctxOk = true ∧
    aiUndecodableEnv.blobOk = true ∧
    createUpscaledImageFile aiUndecodableEnv "edited.png"
      = Except.error "Falha ao carregar a imagem aprimorada pela IA." :=
  ⟨rfl, rfl, rfl, rfl, rfl⟩

/-- C3 (amended): when the AI-upscale stage throws or is rejected — the fetch
of the low-resolution data URL fails or the `generateUpscaledImage` call is
rejected — the pipeline falls back to resampling the original low-resolution
image directly, and that fallback resolves with an image of exactly the
reference dimensions whenever the low-resolution output and the reference
decode and the canvas resample succeeds.  (A decode failure of the
AI-upscaled output, by contrast, rejects the pipeline without any fallback,
as the counterexample shows.) -/
theorem upscale_fallback_on_ai_stage_rejection (env : UpscaleEnv) (fn : String)
    (hfail : env.fetchOk = false ∨ ∃ m, env.aiUpscaleResult = Except.error m) :
    createUpscaledImageFile env fn = simpleUpscaleImageFile env fn ∧
    (env.refDecodable = true → env.lowResDecodable = true →
      env.ctxOk = true → env.blobOk = true →
      createUpscaledImageFile env fn
        = Except.ok ⟨fn, env.refWidth, env.refHeight, env.lowResUrlMime.getD "image/png"⟩) := by
  have h1 : createUpscaledImageFile env fn = simpleUpscaleImageFile env fn := by
    unfold createUpscaledImageFile
    rcases hfail with h | ⟨m, h⟩
    · simp [h]
    · cases hf : env.fetchOk <;> simp [hf, h]
  refine ⟨h1, ?_⟩
  intro hr hl hc hb
  rw [h1]
  unfold simpleUpscaleImageFile
  simp [hr, hl, hc, hb]

/-- Witness for C3 (amended) at a concrete run: the AI upscale is rejected
with "quota", everything else works, and the pipeline resolves with the
reference dimensions 800×600. -/
theorem upscale_fallback_on_ai_stage_rejection_witness :
    createUpscaledImageFile aiRejectedEnv "combined.png"
      = Except.ok ⟨"combined.png", 800, 600, "image/png"⟩ :=
  (upscale_fallback_on_ai_stage_rejection aiRejectedEnv "combined.png"
    (Or.inr ⟨"quota", rfl⟩)).2 rfl rfl rfl rfl

end PixShop

namespace Gemini

lemma noImageError_isOk (r : GenResponse) (t : String) :
    (noImageError r t).isOk = false :=
  rfl

lemma responseWithoutBlock_isOk (r : GenResponse) (t : String) :
    (responseWithoutBlock r t).isOk = true ↔ (findImagePart r).isSome = true := by
  unfold responseWithoutBlock
  cases hf : findImagePart r with
  | some d => simp [Except.isOk, Except.toBool]
  | none =>
    simp only [Option.isSome_none]
    cases hfr : r.candidates.head?.bind Candidate.finishReason with
    | none => simp [noImageError_isOk]
    | some fr =>
      by_cases h : fr != "STOP"
      · simp [h, Except.isOk, Except.toBool]
      · simp [h, noImageError_isOk]

/-- C10 (counterexample to the claim as stated): the handler inspects only
the FIRST candidate.  For a response with no block reason whose first
candidate has no image part while its second candidate does, the handler
throws instead of returning a data URL — so "returns a data URL iff no block
reason is set and some candidate part carries inline image data" fails. -/
theorem second_candidate_image_ignored :
    (secondCandidateResp.candidates.any fun c =>
        c.parts.any fun p => p.inlineData.isSome) = true ∧
    blockReasonOf secondCandidateResp = none ∧
    (handleApiResponse secondCandidateResp "edit").isOk = false := by
  decide

/-- C10 (amended): the policy-block check runs before the image lookup — a
set `promptFeedback.blockReason` makes the handler throw the policy-block
error even when an inline image part is present — and the handler returns a
data URL if and only if no block reason is set and some part of the FIRST
candidate carries inline image data (in which case the returned value is that
part's `data:<mime>;base64,<data>` URL). -/
theorem api_response_block_first_then_first_candidate (r : GenResponse) (ctx : String) :
    (∀ pf br, r.promptFeedback = some pf → pf.blockReason = some br →
      handleApiResponse r ctx
        = Except.error ("A solicitação foi bloqueada. Motivo: " ++ br ++ ". "
            ++ pf.blockReasonMessage.getD "")) ∧
    (∀ d, blockReasonOf r = none → findImagePart r = some d →
      handleApiResponse r ctx
        = Except.ok ("data:" ++ d.mimeType ++ ";base64," ++ d.data)) ∧
    ((handleApiResponse r ctx).isOk = true ↔
      blockReasonOf r = none ∧ (findImagePart r).isSome = true) := by
  refine ⟨?_, ?_, ?_⟩
  · intro pf br h1 h2
    simp [handleApiResponse, h1, h2]
  · intro d hb hf
    unfold handleApiResponse
    cases hpf : r.promptFeedback with
    | none => simp [responseWithoutBlock, hf]
    | some pf =>
      have hbr : pf.blockReason = none := by
        simpa [blockReasonOf, hpf] using hb
      simp [hbr, responseWithoutBlock, hf]
  · constructor
    · intro h
      cases hpf : r.promptFeedback with
      | none =>
        have heq : handleApiResponse r ctx = responseWithoutBlock r (contextTranslate ctx) := by
          simp [handleApiResponse, hpf]
        rw [heq] at h
        exact ⟨by simp [blockReasonOf, hpf], (responseWithoutBlock_isOk r _).mp h⟩
      | some pf =>
        cases hbr : pf.blockReason with
        | none =>
          have heq : handleApiResponse r ctx = responseWithoutBlock r (contextTranslate ctx) := by
            simp [handleApiResponse, hpf, hbr]
          rw [heq] at h
          exact ⟨by simp [blockReasonOf, hpf, hbr], (responseWithoutBlock_isOk r _).mp h⟩
        | some br =>
          have heq : handleApiResponse r ctx
              = Except.error ("A solicitação foi bloqueada. Motivo: " ++ br ++ ". "
                  ++ pf.blockReasonMessage.getD "") := by
            simp [handleApiResponse, hpf, hbr]
          rw [heq] at h
          simp [Except.isOk, Except.toBool] at h
    · rintro ⟨hb, hf⟩
      obtain ⟨d, hd⟩ := Option.isSome_iff_exists.mp hf
      have heq : handleApiResponse r ctx
          = Except.ok ("data:" ++ d.mimeType ++ ";base64," ++ d.data) := by
        unfold handleApiResponse
        cases hpf : r.promptFeedback with
        | none => simp [responseWithoutBlock, hd]
        | some pf =>
          have hbr : pf.blockReason = none := by
            simpa [blockReasonOf, hpf] using hb
          simp [hbr, responseWithoutBlock, hd]
      rw [heq]
      rfl

/-- Witness for C10 (amended) at a concrete blocked-with-image response: the
policy-block error wins over the image part. -/
theorem api_response_block_first_witness :
    handleApiResponse blockedWithImageResp "edit"
      = Except.error ("A solicitação foi bloqueada. Motivo: " ++ "SAFETY" ++ ". "
          ++ ((none : Option String).getD "")) :=
  (api_response_block_first_then_first_candidate blockedWithImageResp "edit").1
    { blockReason := some "SAFETY", blockReasonMessage := none } "SAFETY" rfl rfl

end Gemini
